import Mathlib

/-!
Shallow embedding of `src/biomed_db.py`, a small SQLite-backed clinical-study
store with three tables (Patients, Clinical_Visits, Samples).

Modelling conventions:
* A table row is a structure; a table is a `List` of rows kept in insertion
  order (SQLite returns rows of these simple scans in rowid order, and
  `patient_id` etc. are `INTEGER PRIMARY KEY AUTOINCREMENT`, i.e. the rowid).
* `AUTOINCREMENT` is modelled by monotone `next…Id` counters starting at 1;
  generated identifiers are never reused.
* SQL `NULL`-able columns are `Option`; a `CHECK` constraint passes when its
  operand is `NULL`, which the `…Ok` predicates encode by returning `true`
  on `none`.
* SQLite keeps foreign-key enforcement OFF by default for each connection
  unless `PRAGMA foreign_keys = ON` is executed; the Python code never
  executes that pragma, so the connection produced by `connect_db` carries
  `foreignKeysOn = false`.  The `foreignKeysOn` field records the pragma so
  that both behaviours are expressible.
* `REAL` (`blood_glucose_mmol_L`) is modelled by `Rat`; every literal in the
  program (5.5, 6.0, 4.8, 7.2) is exactly representable.
* A statement that fails returns `Except.error`; `commitOrRollback` models
  the fact that a failed SQLite statement leaves the database unchanged.
-/

/-- One row of the Patients table. -/
structure Patient where
  patient_id : Nat
  full_name : String
  age : Option Int
  gender : Option String
  enrollment_date : String
deriving Repr, DecidableEq

/-- One row of the Clinical_Visits table. -/
structure Visit where
  visit_id : Nat
  patient_id : Nat
  visit_date : String
  systolic_bp : Option Int
  diastolic_bp : Option Int
  blood_glucose_mmol_L : Option Rat
  notes : Option String
deriving Repr, DecidableEq

/-- One row of the Samples table. -/
structure Sample where
  sample_id : Nat
  patient_id : Nat
  collection_date : String
  sample_type : Option String
  storage_location : Option String
deriving Repr, DecidableEq

/-- The state of the store: the file's tables plus the per-connection
foreign-key pragma and the autoincrement counters. -/
structure DB where
  schemaExists : Bool
  foreignKeysOn : Bool
  patients : List Patient
  visits : List Visit
  samples : List Sample
  nextPatientId : Nat
  nextVisitId : Nat
  nextSampleId : Nat
deriving Repr, DecidableEq

/-- A fresh database file: no tables, no rows, counters at 1. -/
def emptyDB : DB :=
  { schemaExists := false, foreignKeysOn := false,
    patients := [], visits := [], samples := [],
    nextPatientId := 1, nextVisitId := 1, nextSampleId := 1 }

/-- `connect_db`: `sqlite3.connect('biomed_study.db')` on a fresh file.
The code never issues `PRAGMA foreign_keys = ON`, so the connection keeps
SQLite's default `foreignKeysOn = false`. -/
def connect_db : DB := emptyDB

/-- `create_tables`: three `CREATE TABLE IF NOT EXISTS` statements.  When the
tables already exist this is a no-op; it never touches row data. -/
def create_tables (db : DB) : DB :=
  { db with schemaExists := true }

/-- CHECK(age >= 18 AND age <= 90); passes on NULL. -/
def ageOk : Option Int → Bool
  | none => true
  | some a => decide (18 ≤ a ∧ a ≤ 90)

/-- CHECK(gender IN ('Male', 'Female', 'Other')); passes on NULL. -/
def genderOk : Option String → Bool
  | none => true
  | some g => g == "Male" || g == "Female" || g == "Other"

/-- CHECK(sample_type IN ('Blood', 'Serum', 'Plasma', 'Urine')); passes on NULL. -/
def sampleTypeOk : Option String → Bool
  | none => true
  | some t => t == "Blood" || t == "Serum" || t == "Plasma" || t == "Urine"

/-- INSERT INTO Patients (full_name, age, gender, enrollment_date). -/
def insertPatient (db : DB) (full_name : String) (age : Option Int)
    (gender : Option String) (enrollment_date : String) : Except String DB :=
  if ageOk age && genderOk gender then
    Except.ok { db with
      patients := db.patients ++
        [⟨db.nextPatientId, full_name, age, gender, enrollment_date⟩],
      nextPatientId := db.nextPatientId + 1 }
  else
    Except.error "CHECK constraint failed: Patients"

/-- INSERT INTO Clinical_Visits.  The FOREIGN KEY clause is only enforced
when the connection has enabled the foreign-key pragma. -/
def insertVisit (db : DB) (patient_id : Nat) (visit_date : String)
    (systolic_bp diastolic_bp : Option Int) (blood_glucose : Option Rat)
    (notes : Option String) : Except String DB :=
  if db.foreignKeysOn && !(db.patients.any (fun p => p.patient_id == patient_id)) then
    Except.error "FOREIGN KEY constraint failed"
  else
    Except.ok { db with
      visits := db.visits ++
        [⟨db.nextVisitId, patient_id, visit_date, systolic_bp, diastolic_bp,
          blood_glucose, notes⟩],
      nextVisitId := db.nextVisitId + 1 }

/-- INSERT INTO Samples; CHECK on sample_type, FOREIGN KEY only when the
pragma is on. -/
def insertSample (db : DB) (patient_id : Nat) (collection_date : String)
    (sample_type : Option String) (storage_location : Option String) :
    Except String DB :=
  if !(sampleTypeOk sample_type) then
    Except.error "CHECK constraint failed: Samples"
  else if db.foreignKeysOn && !(db.patients.any (fun p => p.patient_id == patient_id)) then
    Except.error "FOREIGN KEY constraint failed"
  else
    Except.ok { db with
      samples := db.samples ++
        [⟨db.nextSampleId, patient_id, collection_date, sample_type,
          storage_location⟩],
      nextSampleId := db.nextSampleId + 1 }

/-- A failed SQLite statement leaves the database unchanged; a successful one
yields the new state. -/
def commitOrRollback (db : DB) : Except String DB → DB
  | Except.ok db' => db'
  | Except.error _ => db

/-- `insert_data`: seeds 3 patients, then reads ALL patient ids back with
`SELECT patient_id FROM Patients` (the whole table, in rowid order), then
inserts 4 visits and 5 samples against `patient_ids[0] / [1] / [2]`.
After the three patient inserts the table always has at least 3 rows, so
the Python index accesses cannot fail and `getD` is exact. -/
def insert_data (db : DB) : Except String DB := do
  let db ← insertPatient db "John Doe" (some 45) (some "Male") "2026-01-01"
  let db ← insertPatient db "Jane Smith" (some 52) (some "Female") "2026-01-15"
  let db ← insertPatient db "Alex Johnson" (some 38) (some "Other") "2026-02-01"
  let patient_ids := db.patients.map (fun p => p.patient_id)
  let db ← insertVisit db (patient_ids.getD 0 0) "2026-01-10"
    (some 130) (some 85) (some 5.5) (some "Stable")
  let db ← insertVisit db (patient_ids.getD 0 0) "2026-02-10"
    (some 145) (some 90) (some 6.0) (some "High BP noted")
  let db ← insertVisit db (patient_ids.getD 1 0) "2026-01-20"
    (some 120) (some 80) (some 4.8) (some "Good")
  let db ← insertVisit db (patient_ids.getD 2 0) "2026-02-05"
    (some 150) (some 95) (some 7.2) (some "Monitor glucose")
  let db ← insertSample db (patient_ids.getD 0 0) "2026-01-10"
    (some "Blood") (some "Fridge A-03")
  let db ← insertSample db (patient_ids.getD 0 0) "2026-02-10"
    (some "Serum") (some "Biobank Rack 5")
  let db ← insertSample db (patient_ids.getD 1 0) "2026-01-20"
    (some "Plasma") (some "Fridge A-03")
  let db ← insertSample db (patient_ids.getD 1 0) "2026-01-25"
    (some "Urine") (some "Biobank Rack 5")
  insertSample db (patient_ids.getD 2 0) "2026-02-05"
    (some "Blood") (some "Fridge A-03")

/-- `list_patients`: SELECT full_name, age, enrollment_date FROM Patients. -/
def list_patients (db : DB) : List (String × Option Int × String) :=
  db.patients.map (fun p => (p.full_name, p.age, p.enrollment_date))

/-- `visits_for_patient`: visits with the given patient_id, equality-joined
with Patients on patient_id. -/
def visits_for_patient (db : DB) (patient_id : Nat) :
    List (String × String × Option Int × Option Int × Option Rat × Option String) :=
  (db.visits.filter (fun v => v.patient_id == patient_id)).flatMap (fun v =>
    (db.patients.filter (fun p => p.patient_id == v.patient_id)).map (fun p =>
      (p.full_name, v.visit_date, v.systolic_bp, v.diastolic_bp,
       v.blood_glucose_mmol_L, v.notes)))

/-- WHERE systolic_bp > 140: a NULL reading never qualifies. -/
def visitHighBp (v : Visit) : Bool :=
  match v.systolic_bp with
  | some bp => decide (140 < bp)
  | none => false

/-- `high_bp_patients`: SELECT DISTINCT full_name, patient_id FROM Patients
WHERE patient_id IN (SELECT patient_id FROM Clinical_Visits WHERE
systolic_bp > 140).  `dedup` models DISTINCT on the result rows. -/
def high_bp_patients (db : DB) : List (String × Nat) :=
  ((db.patients.filter (fun p =>
      db.visits.any (fun v => v.patient_id == p.patient_id && visitHighBp v))).map
    (fun p => (p.full_name, p.patient_id))).dedup

/-- `update_sample_location`: UPDATE Samples SET storage_location = ?
WHERE sample_id = ?; affects zero rows when no sample matches. -/
def update_sample_location (db : DB) (sample_id : Nat) (new_location : String) : DB :=
  { db with samples := db.samples.map (fun s =>
      if s.sample_id == sample_id then
        { s with storage_location := some new_location }
      else s) }

/-- `delete_patient`: DELETE FROM Patients WHERE patient_id = ?.  The
`ON DELETE CASCADE` clauses only fire when the connection enforces foreign
keys AND a patient row was actually deleted. -/
def delete_patient (db : DB) (patient_id : Nat) : DB :=
  if db.foreignKeysOn && db.patients.any (fun p => p.patient_id == patient_id) then
    { db with
      patients := db.patients.filter (fun p => !(p.patient_id == patient_id)),
      visits := db.visits.filter (fun v => !(v.patient_id == patient_id)),
      samples := db.samples.filter (fun s => !(s.patient_id == patient_id)) }
  else
    { db with
      patients := db.patients.filter (fun p => !(p.patient_id == patient_id)) }

/-- The state after the demo's `create_tables` + `insert_data` on a fresh
file (the seeding never fails there, so `commitOrRollback` is exact). -/
def seededDB : DB :=
  commitOrRollback (create_tables connect_db) (insert_data (create_tables connect_db))

/-- Spec-following definition for the seeding claim (refinement): every visit
and sample row added by one `insert_data` call references an identifier
generated for a patient inserted by that same call.  `true` also when the
call errors (the claim is about the rows it inserts). -/
def seedUsesOwnIds (db : DB) : Bool :=
  match insert_data db with
  | Except.error _ => true
  | Except.ok db' =>
    let newPatientIds := (db'.patients.drop db.patients.length).map (fun p => p.patient_id)
    ((db'.visits.drop db.visits.length).map (fun v => v.patient_id)).all
      (fun i => newPatientIds.contains i) &&
    ((db'.samples.drop db.samples.length).map (fun s => s.patient_id)).all
      (fun i => newPatientIds.contains i)

/-- claim C1 (evaluation of the failing input): after seeding a fresh store,
`delete_patient 3` removes Alex Johnson's Patient row, but the visit count
stays 4 and the sample count stays 5 — the 1 visit and 1 sample with
patient_id = 3 are left orphaned, because `connect_db` never enables
SQLite's foreign-key pragma and `ON DELETE CASCADE` therefore never fires.
The claim (and the code's own docstring) say the counts drop to 3 and 4. -/
theorem delete_patient_no_cascade :
    (delete_patient seededDB 3).patients.map (fun p => p.full_name) =
      ["John Doe", "Jane Smith"] ∧
    (delete_patient seededDB 3).visits.length = 4 ∧
    (delete_patient seededDB 3).samples.length = 5 ∧
    (delete_patient seededDB 3).visits.any (fun v => v.patient_id == 3) = true ∧
    (delete_patient seededDB 3).samples.any (fun s => s.patient_id == 3) = true := by
  refine ⟨rfl, rfl, rfl, rfl, rfl⟩

/-- claim C2 (evaluation of the failing input): on a freshly initialized
store with NO patients, inserting a Clinical_Visits row and a Samples row
with patient_id = 999 both succeed, creating orphan rows — the declared
FOREIGN KEY constraints are not enforced because the connection never
enables SQLite's foreign-key pragma.  The claim says the store rejects such
inserts. -/
theorem orphan_rows_accepted :
    (create_tables connect_db).patients = [] ∧
    insertVisit (create_tables connect_db) 999 "2026-03-01" none none none none =
      Except.ok { create_tables connect_db with
        visits := [⟨1, 999, "2026-03-01", none, none, none, none⟩],
        nextVisitId := 2 } ∧
    insertSample (create_tables connect_db) 999 "2026-03-01" (some "Blood") none =
      Except.ok { create_tables connect_db with
        samples := [⟨1, 999, "2026-03-01", some "Blood", none⟩],
        nextSampleId := 2 } := by
  refine ⟨rfl, rfl, rfl⟩

/-- claim C3, counterexample: calling `insert_data` on the already-seeded
store (a legal non-empty starting state) inserts visits and samples whose
patient_id values (1, 1, 2, 3) are the ids of the FIRST seeding's patients,
not the ids (4, 5, 6) generated for the 3 patients inserted by this call:
`SELECT patient_id FROM Patients` reads back the whole table and the code
indexes its first three entries. -/
theorem seed_reuses_preexisting_ids : seedUsesOwnIds seededDB = false := by rfl

/-- Dropping the length of the left part of an append leaves the right part. -/
theorem drop_length_append {α : Type} (l₁ l₂ : List α) :
    (l₁ ++ l₂).drop l₁.length = l₂ :=
  List.drop_left l₁ l₂

/-- Variant of `drop_length_append` for a mapped left part. -/
theorem drop_length_append_map {α β : Type} (f : α → β) (l₁ : List α) (l₂ : List β) :
    (l₁.map f ++ l₂).drop l₁.length = l₂ := by
  rw [← List.length_map l₁ f]
  exact List.drop_left _ _

/-- claim C3, amended: when `insert_data` is called on a store whose
Patients table is empty, every one of the 4 visit rows and 5 sample rows it
inserts carries a patient_id generated for one of the 3 patients inserted
by that same call (the ids are read back from the store, not assumed). -/
theorem seed_on_empty_uses_generated_ids (db : DB) (h : db.patients = []) :
    seedUsesOwnIds db = true := by
  obtain ⟨se, fk, ps, vs, ss, np, nv, ns⟩ := db
  simp only [DB.patients] at h
  subst h
  simp [seedUsesOwnIds, insert_data, insertPatient, insertVisit, insertSample,
    ageOk, genderOk, sampleTypeOk, List.getD, Bind.bind, Except.bind,
    drop_length_append, drop_length_append_map, List.contains,
    List.append_assoc]

/-- Witness for the amended seeding claim at the demo's own fresh store. -/
theorem seed_on_empty_uses_generated_ids_witness :
    seedUsesOwnIds (create_tables connect_db) = true :=
  seed_on_empty_uses_generated_ids (create_tables connect_db) rfl

/-- claim C4: after seeding a fresh store, `list_patients` returns exactly
the 3 seeded (name, age, enrollment_date) rows, the visit table holds 4
rows and the sample table holds 5 rows; the seeding itself succeeds. -/
theorem seed_counts :
    (insert_data (create_tables connect_db)).isOk = true ∧
    list_patients seededDB =
      [("John Doe", some 45, "2026-01-01"),
       ("Jane Smith", some 52, "2026-01-15"),
       ("Alex Johnson", some 38, "2026-02-01")] ∧
    seededDB.visits.length = 4 ∧
    seededDB.samples.length = 5 := by
  refine ⟨rfl, rfl, rfl, rfl⟩

/-- claim C9: on the seeded store, `visits_for_patient 1` (John Doe, the
first seeded patient) returns exactly his two visits, each joined with his
name and carrying the seeded visit_date, BP, glucose and notes fields. -/
theorem visits_for_patient_john :
    visits_for_patient seededDB 1 =
      [("John Doe", "2026-01-10", some 130, some 85, some 5.5, some "Stable"),
       ("John Doe", "2026-02-10", some 145, some 90, some 6.0, some "High BP noted")] := by
  rfl

/-- A visit qualifies for the high-BP subquery iff its systolic reading is
present and above 140 (a NULL reading never qualifies). -/
theorem visitHighBp_iff (v : Visit) :
    visitHighBp v = true ↔ ∃ bp, v.systolic_bp = some bp ∧ 140 < bp := by
  cases h : v.systolic_bp <;> simp [visitHighBp, h]

/-- claim C5: in every store state, `high_bp_patients` has no duplicate
rows and contains exactly the (name, id) pairs of patients with at least
one visit whose systolic_bp exceeds 140; on the seeded store it is exactly
John Doe and Alex Johnson, excluding Jane Smith. -/
theorem high_bp_patients_correct :
    (∀ db : DB, (high_bp_patients db).Nodup ∧
      ∀ x, x ∈ high_bp_patients db ↔
        ∃ p, p ∈ db.patients ∧ x = (p.full_name, p.patient_id) ∧
          ∃ v, v ∈ db.visits ∧ v.patient_id = p.patient_id ∧
            ∃ bp, v.systolic_bp = some bp ∧ 140 < bp) ∧
    high_bp_patients seededDB = [("John Doe", 1), ("Alex Johnson", 3)] := by
  refine ⟨fun db => ⟨List.nodup_dedup _, fun x => ?_⟩, by decide⟩
  simp only [high_bp_patients, List.mem_dedup, List.mem_map, List.mem_filter,
    List.any_eq_true, Bool.and_eq_true, beq_iff_eq, visitHighBp_iff]
  constructor
  · rintro ⟨p, ⟨hp, v, hv, hpid, bp, hbp, hlt⟩, rfl⟩
    exact ⟨p, hp, rfl, v, hv, hpid, bp, hbp, hlt⟩
  · rintro ⟨p, hp, rfl, v, hv, hpid, bp, hbp, hlt⟩
    exact ⟨p, ⟨hp, v, hv, hpid, bp, hbp, hlt⟩, rfl⟩

/-- Witness: Alex Johnson is in the seeded high-BP result. -/
theorem high_bp_patients_correct_witness :
    ("Alex Johnson", 3) ∈ high_bp_patients seededDB := by
  rw [high_bp_patients_correct.2]
  decide

/-- claim C6: in every store state, inserting a patient with age 17 or 91
or gender "Unknown", or a sample with sample_type "Saliva", fails with the
relevant CHECK constraint violation, and the failed statement leaves the
database unchanged. -/
theorem check_constraints_reject :
    (∀ (db : DB) (n : String) (g : Option String) (d : String),
      insertPatient db n (some 17) g d = Except.error "CHECK constraint failed: Patients" ∧
      commitOrRollback db (insertPatient db n (some 17) g d) = db) ∧
    (∀ (db : DB) (n : String) (g : Option String) (d : String),
      insertPatient db n (some 91) g d = Except.error "CHECK constraint failed: Patients" ∧
      commitOrRollback db (insertPatient db n (some 91) g d) = db) ∧
    (∀ (db : DB) (n : String) (a : Option Int) (d : String),
      insertPatient db n a (some "Unknown") d = Except.error "CHECK constraint failed: Patients" ∧
      commitOrRollback db (insertPatient db n a (some "Unknown") d) = db) ∧
    (∀ (db : DB) (pid : Nat) (cd : String) (loc : Option String),
      insertSample db pid cd (some "Saliva") loc = Except.error "CHECK constraint failed: Samples" ∧
      commitOrRollback db (insertSample db pid cd (some "Saliva") loc) = db) := by
  have h17 : ageOk (some 17) = false := by decide
  have h91 : ageOk (some 91) = false := by decide
  have hunk : genderOk (some "Unknown") = false := by decide
  have hsal : sampleTypeOk (some "Saliva") = false := by decide
  refine ⟨fun db n g d => ?_, fun db n g d => ?_, fun db n a d => ?_,
    fun db pid cd loc => ?_⟩ <;>
    simp [insertPatient, insertSample, commitOrRollback, h17, h91, hunk, hsal]

/-- claim C7: `update_sample_location` leaves Patients and Clinical_Visits
untouched, keeps the number of samples, leaves every sample with a
different id unchanged, changes only storage_location on a matching sample,
and is the identity when no sample carries the id. -/
theorem update_sample_location_frame (db : DB) (sid : Nat) (loc : String) :
    (update_sample_location db sid loc).patients = db.patients ∧
    (update_sample_location db sid loc).visits = db.visits ∧
    (update_sample_location db sid loc).samples.length = db.samples.length ∧
    (∀ s, s ∈ db.samples → s.sample_id ≠ sid →
      s ∈ (update_sample_location db sid loc).samples) ∧
    (∀ s, s ∈ db.samples → s.sample_id = sid →
      { s with storage_location := some loc } ∈ (update_sample_location db sid loc).samples) ∧
    ((∀ s, s ∈ db.samples → s.sample_id ≠ sid) → update_sample_location db sid loc = db) := by
  refine ⟨rfl, rfl, List.length_map _ _, ?_, ?_, ?_⟩
  · intro s hs hne
    have hmem := List.mem_map_of_mem
      (fun t => if t.sample_id == sid then { t with storage_location := some loc } else t) hs
    simpa [update_sample_location, hne] using hmem
  · intro s hs heq
    have hmem := List.mem_map_of_mem
      (fun t => if t.sample_id == sid then { t with storage_location := some loc } else t) hs
    simpa [update_sample_location, heq] using hmem
  · intro hall
    have hmap : db.samples.map
        (fun t => if t.sample_id == sid then { t with storage_location := some loc } else t) =
        db.samples := by
      rw [List.map_congr_left (fun s hs => ?_), List.map_id']
      simp [hall s hs]
    show { db with samples := _ } = db
    rw [hmap]

/-- Witness: updating sample 1 on the seeded store yields the relocated
first sample among the resulting rows. -/
theorem update_sample_location_frame_witness :
    ({ sample_id := 1, patient_id := 1, collection_date := "2026-01-10",
       sample_type := some "Blood", storage_location := some "Lab Shelf 2" } : Sample) ∈
      (update_sample_location seededDB 1 "Lab Shelf 2").samples :=
  (update_sample_location_frame seededDB 1 "Lab Shelf 2").2.2.2.2.1
    ⟨1, 1, "2026-01-10", some "Blood", some "Fridge A-03"⟩ (by decide) rfl

/-- claim C8: `create_tables` never touches row data, is idempotent, and on
a store whose schema already exists it is the identity (so calling
`initialize` again neither errors nor alters anything). -/
theorem create_tables_idempotent_spec (db : DB) :
    (create_tables db).patients = db.patients ∧
    (create_tables db).visits = db.visits ∧
    (create_tables db).samples = db.samples ∧
    create_tables (create_tables db) = create_tables db ∧
    (db.schemaExists = true → create_tables db = db) := by
  refine ⟨rfl, rfl, rfl, rfl, fun h => ?_⟩
  obtain ⟨se, fk, ps, vs, ss, np, nv, ns⟩ := db
  simp only [DB.schemaExists] at h
  subst h
  rfl

/-- Witness: re-running schema creation on the seeded store is the identity. -/
theorem create_tables_idempotent_witness : create_tables seededDB = seededDB :=
  (create_tables_idempotent_spec seededDB).2.2.2.2 rfl

/-- claim C10: the CHECK constraints pass on NULL and none of age, gender,
sample_type is NOT NULL, so a patient with NULL age and gender, and a
sample with NULL sample_type, are accepted (sample insertion shown under
the connection's actual foreign-key setting, which the code leaves off). -/
theorem null_values_accepted :
    (∀ (db : DB) (n d : String),
      insertPatient db n none none d = Except.ok { db with
        patients := db.patients ++ [⟨db.nextPatientId, n, none, none, d⟩],
        nextPatientId := db.nextPatientId + 1 }) ∧
    (∀ (db : DB) (pid : Nat) (cd : String) (loc : Option String),
      db.foreignKeysOn = false →
      insertSample db pid cd none loc = Except.ok { db with
        samples := db.samples ++ [⟨db.nextSampleId, pid, cd, none, loc⟩],
        nextSampleId := db.nextSampleId + 1 }) := by
  refine ⟨fun db n d => rfl, fun db pid cd loc h => ?_⟩
  simp [insertSample, sampleTypeOk, h]

/-- Witness: a NULL-typed sample is accepted on the fresh initialized store. -/
theorem null_values_accepted_witness :
    insertSample (create_tables connect_db) 7 "2026-03-01" none none =
      Except.ok { create_tables connect_db with
        samples := [⟨1, 7, "2026-03-01", none, none⟩],
        nextSampleId := 2 } :=
  null_values_accepted.2 (create_tables connect_db) 7 "2026-03-01" none rfl
